import Mathlib

/-!
Verification of the two Secrets Manager metadata data sources of this
repository:

* `data_source_ibm_sm_private_certificate_metadata.go`
  (schema `DataSourceIbmSmPrivateCertificateMetadata`,
  read `dataSourceIbmSmPrivateCertificateMetadataRead`, the rotation-policy
  and certificate-validity mappers), and
* the username/password secret metadata data source
  (schema `DataSourceIbmSmUsernamePasswordSecretMetadata`,
  read `dataSourceIbmSmUsernamePasswordSecretMetadataRead` and its
  rotation-policy mappers).

Go pointers become `Option`, Go `int64` becomes `Int`, `strfmt.DateTime`
is modelled by its RFC 3339 rendering (a `String`), and the Terraform
state written through `d.Set` is an association list keyed by the fixed
attribute names.
-/

set_option autoImplicit false

namespace SecretsManager

/-- A scalar value stored in a nested Terraform block (the values the
rotation-policy and validity mappers produce). -/
inductive ScalarVal where
  | str (s : String)
  | int (n : Int)
  | bool (b : Bool)
deriving DecidableEq, Repr

/-- A nested block record: the `map[string]interface{}` a `...ToMap`
helper returns, keyed by the fixed nested attribute names. -/
abbrev NestedMap := List (String × ScalarVal)

/-- A value stored in the top-level Terraform state. -/
inductive GoVal where
  | scalar (v : ScalarVal)
  | strList (l : List String)
  | strMap (m : List (String × String))
  | mapList (l : List NestedMap)
deriving DecidableEq, Repr

/-- The Terraform state map a read function writes into through `d.Set`
and `d.SetId`, keyed by attribute name.  Writes prepend, reads take the
first match, so a later write shadows an earlier one. -/
abbrev StateMap := List (String × GoVal)

/-- First-match lookup in an association list keyed by strings. -/
def lookupKey {α : Type} (k : String) : List (String × α) → Option α
  | [] => none
  | e :: rest => if k = e.1 then some e.2 else lookupKey k rest

/-- `d.Set key value` with a value that is present (non-null). -/
def setAttr (st : StateMap) (k : String) (v : GoVal) : StateMap :=
  (k, v) :: st

/-- Modelled from the spec: the combination of the Terraform SDK's
`d.Set` with the repository's `flex` unwrap helpers (`flex.IntValue`,
`flex.DateTimeToString`, `flex.Flatten` — repository code that is not
under `src/`).  Per spec §4.2, a non-null field is stored converted
under its attribute name and an absent (null) optional field is
skipped, leaving the attribute unset rather than zero-valued. -/
def setAttrOpt (st : StateMap) (k : String) (v : Option GoVal) : StateMap :=
  match v with
  | none => st
  | some v => setAttr st k v

/-- `secretsmanagerv2.CommonRotationPolicy` (auto-rotate flag, interval,
unit). -/
structure CommonRotationPolicy where
  autoRotate : Option Bool
  interval : Option Int
  unit : Option String
deriving DecidableEq, Repr

/-- `secretsmanagerv2.PublicCertificateRotationPolicy` (adds the
rotate-keys flag). -/
structure PublicCertificateRotationPolicy where
  autoRotate : Option Bool
  interval : Option Int
  unit : Option String
  rotateKeys : Option Bool
deriving DecidableEq, Repr

/-- `secretsmanagerv2.RotationPolicy`, the SDK's base struct carrying
every rotation field. -/
structure RotationPolicy where
  autoRotate : Option Bool
  interval : Option Int
  unit : Option String
  rotateKeys : Option Bool
deriving DecidableEq, Repr

/-- `secretsmanagerv2.RotationPolicyIntf`: a Go interface value.  The
three recognized concrete types are listed; `unknown` stands for any
other dynamic type carried by the interface (Go interfaces are open),
the case the mappers' trailing `else` branch rejects. -/
inductive RotationPolicyIntf where
  | common (p : CommonRotationPolicy)
  | publicCertificate (p : PublicCertificateRotationPolicy)
  | rotationPolicy (p : RotationPolicy)
  | unknown (tag : String)
deriving DecidableEq, Repr

/-- `secretsmanagerv2.CertificateValidity`: the (not-before, not-after)
timestamp pair; each `strfmt.DateTime` is modelled by its RFC 3339
rendering. -/
structure CertificateValidity where
  notBefore : Option String
  notAfter : Option String
deriving DecidableEq, Repr

def dataSourceIbmSmPrivateCertificateMetadataCommonRotationPolicyToMap
    (model : CommonRotationPolicy) : Except String NestedMap :=
  let modelMap : NestedMap := []
  let modelMap := match model.autoRotate with
    | none => modelMap
    | some b => modelMap ++ [("auto_rotate", ScalarVal.bool b)]
  let modelMap := match model.interval with
    | none => modelMap
    | some n => modelMap ++ [("interval", ScalarVal.int n)]
  let modelMap := match model.unit with
    | none => modelMap
    | some s => modelMap ++ [("unit", ScalarVal.str s)]
  .ok modelMap

def dataSourceIbmSmPrivateCertificateMetadataPublicCertificateRotationPolicyToMap
    (model : PublicCertificateRotationPolicy) : Except String NestedMap :=
  let modelMap : NestedMap := []
  let modelMap := match model.autoRotate with
    | none => modelMap
    | some b => modelMap ++ [("auto_rotate", ScalarVal.bool b)]
  let modelMap := match model.interval with
    | none => modelMap
    | some n => modelMap ++ [("interval", ScalarVal.int n)]
  let modelMap := match model.unit with
    | none => modelMap
    | some s => modelMap ++ [("unit", ScalarVal.str s)]
  let modelMap := match model.rotateKeys with
    | none => modelMap
    | some b => modelMap ++ [("rotate_keys", ScalarVal.bool b)]
  .ok modelMap

def dataSourceIbmSmPrivateCertificateMetadataRotationPolicyToMap
    (model : RotationPolicyIntf) : Except String NestedMap :=
  match model with
  | .common p => dataSourceIbmSmPrivateCertificateMetadataCommonRotationPolicyToMap p
  | .publicCertificate p =>
      dataSourceIbmSmPrivateCertificateMetadataPublicCertificateRotationPolicyToMap p
  | .rotationPolicy model =>
      let modelMap : NestedMap := []
      let modelMap := match model.autoRotate with
        | none => modelMap
        | some b => modelMap ++ [("auto_rotate", ScalarVal.bool b)]
      let modelMap := match model.interval with
        | none => modelMap
        | some n => modelMap ++ [("interval", ScalarVal.int n)]
      let modelMap := match model.unit with
        | none => modelMap
        | some s => modelMap ++ [("unit", ScalarVal.str s)]
      let modelMap := match model.rotateKeys with
        | none => modelMap
        | some b => modelMap ++ [("rotate_keys", ScalarVal.bool b)]
      .ok modelMap
  | .unknown _ =>
      .error "Unrecognized secretsmanagerv2.RotationPolicyIntf subtype encountered"

def dataSourceIbmSmPrivateCertificateMetadataCertificateValidityToMap
    (model : CertificateValidity) : Except String NestedMap :=
  let modelMap : NestedMap := []
  let modelMap := match model.notBefore with
    | none => modelMap
    | some s => modelMap ++ [("not_before", ScalarVal.str s)]
  let modelMap := match model.notAfter with
    | none => modelMap
    | some s => modelMap ++ [("not_after", ScalarVal.str s)]
  .ok modelMap

def dataSourceIbmSmUsernamePasswordSecretMetadataCommonRotationPolicyToMap
    (model : CommonRotationPolicy) : Except String NestedMap :=
  let modelMap : NestedMap := []
  let modelMap := match model.autoRotate with
    | none => modelMap
    | some b => modelMap ++ [("auto_rotate", ScalarVal.bool b)]
  let modelMap := match model.interval with
    | none => modelMap
    | some n => modelMap ++ [("interval", ScalarVal.int n)]
  let modelMap := match model.unit with
    | none => modelMap
    | some s => modelMap ++ [("unit", ScalarVal.str s)]
  .ok modelMap

def dataSourceIbmSmUsernamePasswordSecretMetadataPublicCertificateRotationPolicyToMap
    (model : PublicCertificateRotationPolicy) : Except String NestedMap :=
  let modelMap : NestedMap := []
  let modelMap := match model.autoRotate with
    | none => modelMap
    | some b => modelMap ++ [("auto_rotate", ScalarVal.bool b)]
  let modelMap := match model.interval with
    | none => modelMap
    | some n => modelMap ++ [("interval", ScalarVal.int n)]
  let modelMap := match model.unit with
    | none => modelMap
    | some s => modelMap ++ [("unit", ScalarVal.str s)]
  let modelMap := match model.rotateKeys with
    | none => modelMap
    | some b => modelMap ++ [("rotate_keys", ScalarVal.bool b)]
  .ok modelMap

def dataSourceIbmSmUsernamePasswordSecretMetadataRotationPolicyToMap
    (model : RotationPolicyIntf) : Except String NestedMap :=
  match model with
  | .common p => dataSourceIbmSmUsernamePasswordSecretMetadataCommonRotationPolicyToMap p
  | .publicCertificate p =>
      dataSourceIbmSmUsernamePasswordSecretMetadataPublicCertificateRotationPolicyToMap p
  | .rotationPolicy model =>
      let modelMap : NestedMap := []
      let modelMap := match model.autoRotate with
        | none => modelMap
        | some b => modelMap ++ [("auto_rotate", ScalarVal.bool b)]
      let modelMap := match model.interval with
        | none => modelMap
        | some n => modelMap ++ [("interval", ScalarVal.int n)]
      let modelMap := match model.unit with
        | none => modelMap
        | some s => modelMap ++ [("unit", ScalarVal.str s)]
      let modelMap := match model.rotateKeys with
        | none => modelMap
        | some b => modelMap ++ [("rotate_keys", ScalarVal.bool b)]
      .ok modelMap
  | .unknown _ =>
      .error "Unrecognized secretsmanagerv2.RotationPolicyIntf subtype encountered"

/-- `secretsmanagerv2.PrivateCertificateMetadata`: the SDK metadata
record for a private certificate (spec §3: identity, timestamps, labels,
state, rotation policy, certificate-specific fields).  Every Go pointer
field becomes an `Option`; `strfmt.DateTime` fields are their RFC 3339
renderings. -/
structure PrivateCertificateMetadata where
  id : Option String
  createdBy : Option String
  createdAt : Option String
  crn : Option String
  customMetadata : Option (List (String × String))
  description : Option String
  downloaded : Option Bool
  labels : Option (List String)
  locksTotal : Option Int
  name : Option String
  secretGroupId : Option String
  secretType : Option String
  state : Option Int
  stateDescription : Option String
  updatedAt : Option String
  versionsTotal : Option Int
  signingAlgorithm : Option String
  altNames : Option (List String)
  certificateAuthority : Option String
  certificateTemplate : Option String
  commonName : Option String
  expirationDate : Option String
  issuer : Option String
  keyAlgorithm : Option String
  nextRotationDate : Option String
  rotation : Option RotationPolicyIntf
  serialNumber : Option String
  validity : Option CertificateValidity
  revocationTimeSeconds : Option Int
  revocationTimeRfc3339 : Option String
deriving DecidableEq, Repr

/-- `secretsmanagerv2.UsernamePasswordSecretMetadata`: the SDK metadata
record for a username/password secret. -/
structure UsernamePasswordSecretMetadata where
  id : Option String
  createdBy : Option String
  createdAt : Option String
  crn : Option String
  customMetadata : Option (List (String × String))
  description : Option String
  downloaded : Option Bool
  labels : Option (List String)
  locksTotal : Option Int
  name : Option String
  secretGroupId : Option String
  secretType : Option String
  state : Option Int
  stateDescription : Option String
  updatedAt : Option String
  versionsTotal : Option Int
  rotation : Option RotationPolicyIntf
  expirationDate : Option String
  nextRotationDate : Option String
deriving DecidableEq, Repr

/-- `secretsmanagerv2.SecretMetadataIntf`: the interface value returned
by `GetSecretMetadataWithContext`.  The two concrete shapes the two read
functions assert to are listed; `otherSecretType` stands for any other
concrete SDK metadata type the open interface may carry. -/
inductive SecretMetadataIntf where
  | privateCertificate (m : PrivateCertificateMetadata)
  | usernamePassword (m : UsernamePasswordSecretMetadata)
  | otherSecretType (tag : String)
deriving DecidableEq, Repr

/-- The triple `(metadataIntf, response, err)` returned by the SDK call
`GetSecretMetadataWithContext`.  `response` is the rendered
`core.DetailedResponse` the error path interpolates; `intf` is `none`
when the interface value is nil. -/
structure FetchOutcome where
  intf : Option SecretMetadataIntf
  response : String
  err : Option String
deriving DecidableEq, Repr

/-- Outcome of one invocation of a read function: normal completion
carrying the final state, an error diagnostic (`diag.FromErr`) carrying
the state as mutated so far, or a Go runtime panic (failed type
assertion or nil-pointer dereference), which is not a user-facing
diagnostic. -/
inductive ReadResult where
  | ok (st : StateMap)
  | err (st : StateMap) (msg : String)
  | goPanic (msg : String)
deriving DecidableEq, Repr

/-- The state component of a completed (non-panicking) read. -/
def ReadResult.stateOf : ReadResult → Option StateMap
  | .ok st => some st
  | .err st _ => some st
  | .goPanic _ => none

/-- Lines 345–352: the `rotation` one-element list built from the
optional rotation policy of the private-certificate record. -/
def privateCertificateRotationList (rotation : Option RotationPolicyIntf) :
    Except String (List NestedMap) :=
  match rotation with
  | none => .ok []
  | some r =>
    match dataSourceIbmSmPrivateCertificateMetadataRotationPolicyToMap r with
    | .error e => .error e
    | .ok modelMap => .ok [modelMap]

/-- Lines 361–368: the `validity` one-element list built from the
optional validity window of the private-certificate record. -/
def privateCertificateValidityList (validity : Option CertificateValidity) :
    Except String (List NestedMap) :=
  match validity with
  | none => .ok []
  | some v =>
    match dataSourceIbmSmPrivateCertificateMetadataCertificateValidityToMap v with
    | .error e => .error e
    | .ok modelMap => .ok [modelMap]

/-- Lines 310–317 of the username/password file: the `rotation`
one-element list. -/
def usernamePasswordRotationList (rotation : Option RotationPolicyIntf) :
    Except String (List NestedMap) :=
  match rotation with
  | none => .ok []
  | some r =>
    match dataSourceIbmSmUsernamePasswordSecretMetadataRotationPolicyToMap r with
    | .error e => .error e
    | .ok modelMap => .ok [modelMap]

/-- Lines 245–381: the success path of
`dataSourceIbmSmPrivateCertificateMetadataRead` after the type
assertion: `d.SetId(*m.ID)` (a nil `ID` is a Go nil-pointer panic)
followed by the per-field `d.Set` calls in source order.  `d.Set` never
fails in this typed model (taxonomy item (c) of spec §7 cannot arise),
so the only error exit is the rotation/validity mapper. -/
def privateCertificateMetadataAssign (m : PrivateCertificateMetadata)
    (d : StateMap) : ReadResult :=
  match m.id with
  | none => .goPanic "runtime error: invalid memory address or nil pointer dereference"
  | some theId =>
    let st := setAttr d "id" (.scalar (.str theId))
    let st := setAttrOpt st "created_by" ((m.createdBy).map fun s => .scalar (.str s))
    let st := setAttrOpt st "created_at" ((m.createdAt).map fun s => .scalar (.str s))
    let st := setAttrOpt st "crn" ((m.crn).map fun s => .scalar (.str s))
    let st := setAttrOpt st "custom_metadata" ((m.customMetadata).map fun cm => .strMap cm)
    let st := setAttrOpt st "description" ((m.description).map fun s => .scalar (.str s))
    let st := setAttrOpt st "downloaded" ((m.downloaded).map fun b => .scalar (.bool b))
    let st := setAttrOpt st "locks_total" ((m.locksTotal).map fun n => .scalar (.int n))
    let st := setAttrOpt st "name" ((m.name).map fun s => .scalar (.str s))
    let st := setAttrOpt st "secret_group_id" ((m.secretGroupId).map fun s => .scalar (.str s))
    let st := setAttrOpt st "secret_type" ((m.secretType).map fun s => .scalar (.str s))
    let st := setAttrOpt st "state" ((m.state).map fun n => .scalar (.int n))
    let st := setAttrOpt st "state_description" ((m.stateDescription).map fun s => .scalar (.str s))
    let st := setAttrOpt st "updated_at" ((m.updatedAt).map fun s => .scalar (.str s))
    let st := setAttrOpt st "versions_total" ((m.versionsTotal).map fun n => .scalar (.int n))
    let st := setAttrOpt st "signing_algorithm" ((m.signingAlgorithm).map fun s => .scalar (.str s))
    let st := setAttrOpt st "certificate_authority" ((m.certificateAuthority).map fun s => .scalar (.str s))
    let st := setAttrOpt st "certificate_template" ((m.certificateTemplate).map fun s => .scalar (.str s))
    let st := setAttrOpt st "common_name" ((m.commonName).map fun s => .scalar (.str s))
    let st := setAttrOpt st "expiration_date" ((m.expirationDate).map fun s => .scalar (.str s))
    let st := setAttrOpt st "issuer" ((m.issuer).map fun s => .scalar (.str s))
    let st := setAttrOpt st "key_algorithm" ((m.keyAlgorithm).map fun s => .scalar (.str s))
    let st := setAttrOpt st "next_rotation_date" ((m.nextRotationDate).map fun s => .scalar (.str s))
    match privateCertificateRotationList m.rotation with
    | .error e => .err st e
    | .ok rotation =>
      let st := setAttr st "rotation" (.mapList rotation)
      let st := setAttrOpt st "serial_number" ((m.serialNumber).map fun s => .scalar (.str s))
      match privateCertificateValidityList m.validity with
      | .error e => .err st e
      | .ok validity =>
        let st := setAttr st "validity" (.mapList validity)
        let st := setAttrOpt st "revocation_time_seconds"
          ((m.revocationTimeSeconds).map fun n => .scalar (.int n))
        let st := setAttrOpt st "revocation_time_rfc3339"
          ((m.revocationTimeRfc3339).map fun s => .scalar (.str s))
        .ok st

/-- Lines 242–330 of the username/password file: the success path of
`dataSourceIbmSmUsernamePasswordSecretMetadataRead` after the type
assertion, in source order. -/
def usernamePasswordSecretMetadataAssign (m : UsernamePasswordSecretMetadata)
    (d : StateMap) : ReadResult :=
  match m.id with
  | none => .goPanic "runtime error: invalid memory address or nil pointer dereference"
  | some theId =>
    let st := setAttr d "id" (.scalar (.str theId))
    let st := setAttrOpt st "created_by" ((m.createdBy).map fun s => .scalar (.str s))
    let st := setAttrOpt st "created_at" ((m.createdAt).map fun s => .scalar (.str s))
    let st := setAttrOpt st "crn" ((m.crn).map fun s => .scalar (.str s))
    let st := setAttrOpt st "custom_metadata" ((m.customMetadata).map fun cm => .strMap cm)
    let st := setAttrOpt st "description" ((m.description).map fun s => .scalar (.str s))
    let st := setAttrOpt st "downloaded" ((m.downloaded).map fun b => .scalar (.bool b))
    let st := setAttrOpt st "locks_total" ((m.locksTotal).map fun n => .scalar (.int n))
    let st := setAttrOpt st "name" ((m.name).map fun s => .scalar (.str s))
    let st := setAttrOpt st "secret_group_id" ((m.secretGroupId).map fun s => .scalar (.str s))
    let st := setAttrOpt st "secret_type" ((m.secretType).map fun s => .scalar (.str s))
    let st := setAttrOpt st "state" ((m.state).map fun n => .scalar (.int n))
    let st := setAttrOpt st "state_description" ((m.stateDescription).map fun s => .scalar (.str s))
    let st := setAttrOpt st "updated_at" ((m.updatedAt).map fun s => .scalar (.str s))
    let st := setAttrOpt st "versions_total" ((m.versionsTotal).map fun n => .scalar (.int n))
    match usernamePasswordRotationList m.rotation with
    | .error e => .err st e
    | .ok rotation =>
      let st := setAttr st "rotation" (.mapList rotation)
      let st := setAttrOpt st "expiration_date" ((m.expirationDate).map fun s => .scalar (.str s))
      let st := setAttrOpt st "next_rotation_date" ((m.nextRotationDate).map fun s => .scalar (.str s))
      .ok st

/-- Lines 225–245: `dataSourceIbmSmPrivateCertificateMetadataRead`.

`sessionErr` models the error component of
`meta.(conns.ClientSession).SecretsManagerV2()`; `inputId` is
`d.Get("id").(string)`; `fetch` is the SDK client's
`GetSecretMetadataWithContext`, an oracle from the requested id to its
outcome (the `getClientWithInstanceEndpoint` wrapper only chooses the
endpoint and does not change the modelled behaviour).  The second
component of the result is the trace of outbound `GetSecretMetadata`
calls, in order, each recorded by the id it was given. -/
def dataSourceIbmSmPrivateCertificateMetadataRead (sessionErr : Option String)
    (inputId : String) (fetch : String → FetchOutcome) (d : StateMap) :
    ReadResult × List String :=
  match sessionErr with
  | some e => (.err d e, [])
  | none =>
    let outcome := fetch inputId
    match outcome.err with
    | some e =>
      (.err d ("GetSecretMetadataWithContext failed " ++ e ++ "\n" ++ outcome.response),
       [inputId])
    | none =>
      match outcome.intf with
      | some (.privateCertificate m) => (privateCertificateMetadataAssign m d, [inputId])
      | _ =>
        (.goPanic "interface conversion: secretsmanagerv2.SecretMetadataIntf is not *secretsmanagerv2.PrivateCertificateMetadata",
         [inputId])

/-- Lines 223–242 of the username/password file:
`dataSourceIbmSmUsernamePasswordSecretMetadataRead`, modelled exactly as
the private-certificate read but asserting to
`*secretsmanagerv2.UsernamePasswordSecretMetadata`. -/
def dataSourceIbmSmUsernamePasswordSecretMetadataRead (sessionErr : Option String)
    (inputId : String) (fetch : String → FetchOutcome) (d : StateMap) :
    ReadResult × List String :=
  match sessionErr with
  | some e => (.err d e, [])
  | none =>
    let outcome := fetch inputId
    match outcome.err with
    | some e =>
      (.err d ("GetSecretMetadataWithContext failed " ++ e ++ "\n" ++ outcome.response),
       [inputId])
    | none =>
      match outcome.intf with
      | some (.usernamePassword m) => (usernamePasswordSecretMetadataAssign m d, [inputId])
      | _ =>
        (.goPanic "interface conversion: secretsmanagerv2.SecretMetadataIntf is not *secretsmanagerv2.UsernamePasswordSecretMetadata",
         [inputId])

/-- The Terraform value type of a declared attribute
(`schema.TypeString`, `TypeInt`, `TypeBool`, `TypeList`, `TypeMap`). -/
inductive SchemaValueType where
  | typeString
  | typeInt
  | typeBool
  | typeList
  | typeMap
deriving DecidableEq, Repr

/-- A declared attribute of a nested resource block. -/
structure NestedAttrSchema where
  typ : SchemaValueType
  computed : Bool
  description : String
deriving DecidableEq, Repr

/-- The `Elem` of a list/map attribute: either a scalar element schema
or a nested `schema.Resource` with its own fields. -/
inductive SchemaElem where
  | elemSchema (typ : SchemaValueType)
  | elemResource (fields : List (String × NestedAttrSchema))
deriving DecidableEq, Repr

/-- A declared top-level attribute: its type, the `Required` and
`Computed` flags (both default to false in the SDK), its description and
its optional `Elem`. -/
structure AttrSchema where
  typ : SchemaValueType
  required : Bool
  computed : Bool
  description : String
  elem : Option SchemaElem
deriving DecidableEq, Repr

/-- Lines 19–223: the `Schema` map of the resource returned by
`DataSourceIbmSmPrivateCertificateMetadata` (the `ReadContext` of that
resource is `dataSourceIbmSmPrivateCertificateMetadataRead`). -/
def DataSourceIbmSmPrivateCertificateMetadata : List (String × AttrSchema) :=
  [ ("id", ⟨.typeString, true, false, "The ID of the secret.", none⟩),
    ("created_by", ⟨.typeString, false, true, "The unique identifier that is associated with the entity that created the secret.", none⟩),
    ("created_at", ⟨.typeString, false, true, "The date when a resource was created. The date format follows RFC 3339.", none⟩),
    ("crn", ⟨.typeString, false, true, "A CRN that uniquely identifies an IBM Cloud resource.", none⟩),
    ("custom_metadata", ⟨.typeMap, false, true, "The secret metadata that a user can customize.", some (.elemSchema .typeString)⟩),
    ("description", ⟨.typeString, false, true, "An extended description of your secret.To protect your privacy, do not use personal data, such as your name or location, as a description for your secret group.", none⟩),
    ("downloaded", ⟨.typeBool, false, true, "Indicates whether the secret data that is associated with a secret version was retrieved in a call to the service API.", none⟩),
    ("labels", ⟨.typeList, false, true, "Labels that you can use to search for secrets in your instance.Up to 30 labels can be created.", some (.elemSchema .typeString)⟩),
    ("locks_total", ⟨.typeInt, false, true, "The number of locks of the secret.", none⟩),
    ("name", ⟨.typeString, false, true, "The human-readable name of your secret.", none⟩),
    ("secret_group_id", ⟨.typeString, false, true, "A v4 UUID identifier, or `default` secret group.", none⟩),
    ("secret_type", ⟨.typeString, false, true, "The secret type. Supported types are arbitrary, certificates (imported, public, and private), IAM credentials, key-value, and user credentials.", none⟩),
    ("state", ⟨.typeInt, false, true, "The secret state that is based on NIST SP 800-57. States are integers and correspond to the `Pre-activation = 0`, `Active = 1`,  `Suspended = 2`, `Deactivated = 3`, and `Destroyed = 5` values.", none⟩),
    ("state_description", ⟨.typeString, false, true, "A text representation of the secret state.", none⟩),
    ("updated_at", ⟨.typeString, false, true, "The date when a resource was recently modified. The date format follows RFC 3339.", none⟩),
    ("versions_total", ⟨.typeInt, false, true, "The number of versions of the secret.", none⟩),
    ("signing_algorithm", ⟨.typeString, false, true, "The identifier for the cryptographic algorithm that was used by the issuing certificate authority to sign a certificate.", none⟩),
    ("alt_names", ⟨.typeList, false, true, "With the Subject Alternative Name field, you can specify additional host names to be protected by a single SSL certificate.", some (.elemSchema .typeString)⟩),
    ("certificate_authority", ⟨.typeString, false, true, "The intermediate certificate authority that signed this certificate.", none⟩),
    ("certificate_template", ⟨.typeString, false, true, "The name of the certificate template.", none⟩),
    ("common_name", ⟨.typeString, false, true, "The Common Name (AKA CN) represents the server name that is protected by the SSL certificate.", none⟩),
    ("expiration_date", ⟨.typeString, false, true, "The date a secret is expired. The date format follows RFC 3339.", none⟩),
    ("issuer", ⟨.typeString, false, true, "The distinguished name that identifies the entity that signed and issued the certificate.", none⟩),
    ("key_algorithm", ⟨.typeString, false, true, "The identifier for the cryptographic algorithm used to generate the public key that is associated with the certificate.", none⟩),
    ("next_rotation_date", ⟨.typeString, false, true, "The date that the secret is scheduled for automatic rotation.The service automatically creates a new version of the secret on its next rotation date. This field exists only for secrets that have an existing rotation policy.", none⟩),
    ("rotation", ⟨.typeList, false, true, "Determines whether Secrets Manager rotates your secrets automatically.",
      some (.elemResource
        [ ("auto_rotate", ⟨.typeBool, true, "Determines whether Secrets Manager rotates your secret automatically.Default is `false`. If `auto_rotate` is set to `true` the service rotates your secret based on the defined interval."⟩),
          ("interval", ⟨.typeInt, true, "The length of the secret rotation time interval."⟩),
          ("unit", ⟨.typeString, true, "The units for the secret rotation time interval."⟩),
          ("rotate_keys", ⟨.typeBool, true, "Determines whether Secrets Manager rotates the private key for your public certificate automatically.Default is `false`. If it is set to `true`, the service generates and stores a new private key for your rotated certificate."⟩)
        ])⟩),
    ("serial_number", ⟨.typeString, false, true, "The unique serial number that was assigned to a certificate by the issuing certificate authority.", none⟩),
    ("validity", ⟨.typeList, false, true, "The date and time that the certificate validity period begins and ends.",
      some (.elemResource
        [ ("not_before", ⟨.typeString, true, "The date-time format follows RFC 3339."⟩),
          ("not_after", ⟨.typeString, true, "The date-time format follows RFC 3339."⟩)
        ])⟩),
    ("revocation_time_seconds", ⟨.typeInt, false, true, "The timestamp of the certificate revocation.", none⟩),
    ("revocation_time_rfc3339", ⟨.typeString, false, true, "The date and time that the certificate was revoked. The date format follows RFC 3339.", none⟩)
  ]

/-- Lines 89–221 of the username/password file: the `Schema` map of the
resource returned by `DataSourceIbmSmUsernamePasswordSecretMetadata`
(its `ReadContext` is `dataSourceIbmSmUsernamePasswordSecretMetadataRead`). -/
def DataSourceIbmSmUsernamePasswordSecretMetadata : List (String × AttrSchema) :=
  [ ("id", ⟨.typeString, true, false, "The ID of the secret.", none⟩),
    ("created_by", ⟨.typeString, false, true, "The unique identifier that is associated with the entity that created the secret.", none⟩),
    ("created_at", ⟨.typeString, false, true, "The date when a resource was created. The date format follows RFC 3339.", none⟩),
    ("crn", ⟨.typeString, false, true, "A CRN that uniquely identifies an IBM Cloud resource.", none⟩),
    ("custom_metadata", ⟨.typeMap, false, true, "The secret metadata that a user can customize.", some (.elemSchema .typeString)⟩),
    ("description", ⟨.typeString, false, true, "An extended description of your secret.To protect your privacy, do not use personal data, such as your name or location, as a description for your secret group.", none⟩),
    ("downloaded", ⟨.typeBool, false, true, "Indicates whether the secret data that is associated with a secret version was retrieved in a call to the service API.", none⟩),
    ("labels", ⟨.typeList, false, true, "Labels that you can use to search for secrets in your instance.Up to 30 labels can be created.", some (.elemSchema .typeString)⟩),
    ("locks_total", ⟨.typeInt, false, true, "The number of locks of the secret.", none⟩),
    ("name", ⟨.typeString, false, true, "The human-readable name of your secret.", none⟩),
    ("secret_group_id", ⟨.typeString, false, true, "A v4 UUID identifier, or `default` secret group.", none⟩),
    ("secret_type", ⟨.typeString, false, true, "The secret type. Supported types are arbitrary, certificates (imported, public, and private), IAM credentials, key-value, and user credentials.", none⟩),
    ("state", ⟨.typeInt, false, true, "The secret state that is based on NIST SP 800-57. States are integers and correspond to the `Pre-activation = 0`, `Active = 1`,  `Suspended = 2`, `Deactivated = 3`, and `Destroyed = 5` values.", none⟩),
    ("state_description", ⟨.typeString, false, true, "A text representation of the secret state.", none⟩),
    ("updated_at", ⟨.typeString, false, true, "The date when a resource was recently modified. The date format follows RFC 3339.", none⟩),
    ("versions_total", ⟨.typeInt, false, true, "The number of versions of the secret.", none⟩),
    ("rotation", ⟨.typeList, false, true, "Determines whether Secrets Manager rotates your secrets automatically.",
      some (.elemResource
        [ ("auto_rotate", ⟨.typeBool, true, "Determines whether Secrets Manager rotates your secret automatically.Default is `false`. If `auto_rotate` is set to `true` the service rotates your secret based on the defined interval."⟩),
          ("interval", ⟨.typeInt, true, "The length of the secret rotation time interval."⟩),
          ("unit", ⟨.typeString, true, "The units for the secret rotation time interval."⟩),
          ("rotate_keys", ⟨.typeBool, true, "Determines whether Secrets Manager rotates the private key for your public certificate automatically.Default is `false`. If it is set to `true`, the service generates and stores a new private key for your rotated certificate."⟩)
        ])⟩),
    ("expiration_date", ⟨.typeString, false, true, "The date a secret is expired. The date format follows RFC 3339.", none⟩),
    ("next_rotation_date", ⟨.typeString, false, true, "The date that the secret is scheduled for automatic rotation.The service automatically creates a new version of the secret on its next rotation date. This field exists only for secrets that have an existing rotation policy.", none⟩)
  ]

/-! ### Observation helpers -/

/-- A single optional nested-map entry: present fields contribute one
keyed entry, absent fields contribute nothing.  Used to describe, per
variant, exactly the fields a rotation-policy mapper emits. -/
def optEntry (k : String) (v : Option ScalarVal) : NestedMap :=
  match v with
  | none => []
  | some x => [(k, x)]

/-- The attribute stored under `k` when a read completed normally. -/
def readAttr (r : ReadResult × List String) (k : String) : Option GoVal :=
  match r.1 with
  | .ok st => lookupKey k st
  | _ => none

theorem lookupKey_append {α : Type} (k : String) (a b : List (String × α)) :
    lookupKey k (a ++ b) =
      (match lookupKey k a with
       | some v => some v
       | none => lookupKey k b) := by
  induction a with
  | nil => simp [lookupKey]
  | cons e rest ih =>
    by_cases h : k = e.1 <;> simp [lookupKey, h, ih]

theorem lookupKey_optEntry (k k' : String) (v : Option ScalarVal) :
    lookupKey k (optEntry k' v) = if k = k' then v else none := by
  cases v with
  | none => simp [optEntry, lookupKey]
  | some x =>
    by_cases h : k = k' <;> simp [optEntry, lookupKey, h]

/-- The record with every optional field absent. -/
def emptyPrivateCertificateMetadata : PrivateCertificateMetadata :=
  ⟨none, none, none, none, none, none, none, none, none, none,
   none, none, none, none, none, none, none, none, none, none,
   none, none, none, none, none, none, none, none, none, none⟩

/-- The record with every optional field absent. -/
def emptyUsernamePasswordSecretMetadata : UsernamePasswordSecretMetadata :=
  ⟨none, none, none, none, none, none, none, none, none, none,
   none, none, none, none, none, none, none, none, none⟩

/-! ### Claim theorems -/

/-- C9: the two rotation-policy mappers,
`dataSourceIbmSmPrivateCertificateMetadataRotationPolicyToMap` and
`dataSourceIbmSmUsernamePasswordSecretMetadataRotationPolicyToMap`, are
extensionally equal: on every rotation-policy interface value they
return the same map or the same error. -/
theorem rotationPolicyToMap_extensionally_equal :
    ∀ model : RotationPolicyIntf,
      dataSourceIbmSmPrivateCertificateMetadataRotationPolicyToMap model =
        dataSourceIbmSmUsernamePasswordSecretMetadataRotationPolicyToMap model := by
  intro model
  cases model <;> rfl

/-- C5: the validity mapper maps the window
(`not_before="2023-01-01T00:00:00Z"`, `not_after="2024-01-01T00:00:00Z"`)
to a single record preserving both timestamp strings verbatim under
`not_before` and `not_after`, and the read operation stores it as a
one-element nested list under `validity`. -/
theorem certificateValidityToMap_roundtrip :
    dataSourceIbmSmPrivateCertificateMetadataCertificateValidityToMap
        ⟨some "2023-01-01T00:00:00Z", some "2024-01-01T00:00:00Z"⟩ =
      .ok [("not_before", .str "2023-01-01T00:00:00Z"),
           ("not_after", .str "2024-01-01T00:00:00Z")] ∧
    readAttr
        (dataSourceIbmSmPrivateCertificateMetadataRead none "secret-val"
          (fun _ =>
            ⟨some (.privateCertificate
              { emptyPrivateCertificateMetadata with
                  id := some "secret-val",
                  validity := some ⟨some "2023-01-01T00:00:00Z", some "2024-01-01T00:00:00Z"⟩ }),
             "200 OK", none⟩)
          [])
        "validity" =
      some (.mapList [[("not_before", .str "2023-01-01T00:00:00Z"),
                       ("not_after", .str "2024-01-01T00:00:00Z")]]) := by
  exact ⟨rfl, rfl⟩

/-- C6: fetching `"secret-123"` successfully with `state=1`,
`versions_total=2` and a null rotation policy yields an output map with
`state=1`, `versions_total=2` and the `rotation` attribute set to an
empty nested list. -/
theorem read_secret123_rotation_null :
    readAttr
        (dataSourceIbmSmPrivateCertificateMetadataRead none "secret-123"
          (fun _ =>
            ⟨some (.privateCertificate
              { emptyPrivateCertificateMetadata with
                  id := some "secret-123", state := some 1, versionsTotal := some 2 }),
             "200 OK", none⟩)
          [])
        "state" = some (.scalar (.int 1)) ∧
    readAttr
        (dataSourceIbmSmPrivateCertificateMetadataRead none "secret-123"
          (fun _ =>
            ⟨some (.privateCertificate
              { emptyPrivateCertificateMetadata with
                  id := some "secret-123", state := some 1, versionsTotal := some 2 }),
             "200 OK", none⟩)
          [])
        "versions_total" = some (.scalar (.int 2)) ∧
    readAttr
        (dataSourceIbmSmPrivateCertificateMetadataRead none "secret-123"
          (fun _ =>
            ⟨some (.privateCertificate
              { emptyPrivateCertificateMetadata with
                  id := some "secret-123", state := some 1, versionsTotal := some 2 }),
             "200 OK", none⟩)
          [])
        "rotation" = some (.mapList []) := by
  exact ⟨rfl, rfl, rfl⟩

/-- A successfully fetched private-certificate record with non-null
`Labels` and `AltNames` (and a non-null name, to show the surrounding
fields are mapped). -/
def labeledPrivateCertificateMetadata : PrivateCertificateMetadata :=
  { emptyPrivateCertificateMetadata with
      id := some "secret-lab", name := some "lab-secret",
      labels := some ["dev", "test"], altNames := some ["alt.ibm.com"] }

/-- A successfully fetched username/password record with non-null
`Labels`. -/
def labeledUsernamePasswordSecretMetadata : UsernamePasswordSecretMetadata :=
  { emptyUsernamePasswordSecretMetadata with
      id := some "secret-lab", name := some "lab-secret",
      labels := some ["dev", "test"] }

/-- C1 (refuted on the code): both schemas declare `labels` (and the
private-certificate schema declares `alt_names`) as computed
attributes, yet neither read function ever copies those fields, so a
record whose `Labels` field is non-null produces an output map with no
`labels` entry — while its other non-null fields (here `name`, and the
id) are mapped.  This theorem evaluates both read operations at such a
record. -/
theorem labels_field_never_copied :
    labeledPrivateCertificateMetadata.labels = some ["dev", "test"] ∧
    labeledPrivateCertificateMetadata.altNames = some ["alt.ibm.com"] ∧
    lookupKey "labels" DataSourceIbmSmPrivateCertificateMetadata ≠ none ∧
    lookupKey "alt_names" DataSourceIbmSmPrivateCertificateMetadata ≠ none ∧
    readAttr
        (dataSourceIbmSmPrivateCertificateMetadataRead none "secret-lab"
          (fun _ => ⟨some (.privateCertificate labeledPrivateCertificateMetadata), "200 OK", none⟩)
          [])
        "labels" = none ∧
    readAttr
        (dataSourceIbmSmPrivateCertificateMetadataRead none "secret-lab"
          (fun _ => ⟨some (.privateCertificate labeledPrivateCertificateMetadata), "200 OK", none⟩)
          [])
        "alt_names" = none ∧
    readAttr
        (dataSourceIbmSmPrivateCertificateMetadataRead none "secret-lab"
          (fun _ => ⟨some (.privateCertificate labeledPrivateCertificateMetadata), "200 OK", none⟩)
          [])
        "name" = some (.scalar (.str "lab-secret")) ∧
    readAttr
        (dataSourceIbmSmPrivateCertificateMetadataRead none "secret-lab"
          (fun _ => ⟨some (.privateCertificate labeledPrivateCertificateMetadata), "200 OK", none⟩)
          [])
        "id" = some (.scalar (.str "secret-lab")) ∧
    labeledUsernamePasswordSecretMetadata.labels = some ["dev", "test"] ∧
    lookupKey "labels" DataSourceIbmSmUsernamePasswordSecretMetadata ≠ none ∧
    readAttr
        (dataSourceIbmSmUsernamePasswordSecretMetadataRead none "secret-lab"
          (fun _ => ⟨some (.usernamePassword labeledUsernamePasswordSecretMetadata), "200 OK", none⟩)
          [])
        "labels" = none ∧
    readAttr
        (dataSourceIbmSmUsernamePasswordSecretMetadataRead none "secret-lab"
          (fun _ => ⟨some (.usernamePassword labeledUsernamePasswordSecretMetadata), "200 OK", none⟩)
          [])
        "name" = some (.scalar (.str "lab-secret")) := by
  refine ⟨rfl, rfl, ?_, ?_, rfl, rfl, rfl, rfl, rfl, ?_, rfl, rfl⟩ <;> decide

/-- The error message carried by a read that ended in a diagnostic. -/
def ReadResult.errMsg : ReadResult → Option String
  | .err _ msg => some msg
  | _ => none

/-- The fields present on a generic (common) rotation policy:
auto-rotate flag, interval and unit, each contributing an entry exactly
when non-null.  Spec-side description of the variant's field set, used
to state C2. -/
def commonRotationPolicyFields (p : CommonRotationPolicy) : NestedMap :=
  optEntry "auto_rotate" ((p.autoRotate).map ScalarVal.bool) ++
  optEntry "interval" ((p.interval).map ScalarVal.int) ++
  optEntry "unit" ((p.unit).map ScalarVal.str)

/-- The fields present on a public-certificate rotation policy: the
generic fields plus the rotate-keys flag. -/
def publicCertificateRotationPolicyFields (p : PublicCertificateRotationPolicy) : NestedMap :=
  optEntry "auto_rotate" ((p.autoRotate).map ScalarVal.bool) ++
  optEntry "interval" ((p.interval).map ScalarVal.int) ++
  optEntry "unit" ((p.unit).map ScalarVal.str) ++
  optEntry "rotate_keys" ((p.rotateKeys).map ScalarVal.bool)

/-- The fields present on the SDK's base rotation-policy struct. -/
def rotationPolicyFields (p : RotationPolicy) : NestedMap :=
  optEntry "auto_rotate" ((p.autoRotate).map ScalarVal.bool) ++
  optEntry "interval" ((p.interval).map ScalarVal.int) ++
  optEntry "unit" ((p.unit).map ScalarVal.str) ++
  optEntry "rotate_keys" ((p.rotateKeys).map ScalarVal.bool)

/-- C2: for each of the three recognized rotation-policy variants, both
mappers return exactly that variant's present fields; the generic
(common) variant never yields a `rotate_keys` entry, and a variant
carrying a non-null rotate-keys field always does. -/
theorem rotationPolicyToMap_variant_exact :
    (∀ p : CommonRotationPolicy,
      dataSourceIbmSmPrivateCertificateMetadataRotationPolicyToMap (.common p) =
        .ok (commonRotationPolicyFields p) ∧
      dataSourceIbmSmUsernamePasswordSecretMetadataRotationPolicyToMap (.common p) =
        .ok (commonRotationPolicyFields p) ∧
      lookupKey "rotate_keys" (commonRotationPolicyFields p) = none) ∧
    (∀ p : PublicCertificateRotationPolicy,
      dataSourceIbmSmPrivateCertificateMetadataRotationPolicyToMap (.publicCertificate p) =
        .ok (publicCertificateRotationPolicyFields p) ∧
      dataSourceIbmSmUsernamePasswordSecretMetadataRotationPolicyToMap (.publicCertificate p) =
        .ok (publicCertificateRotationPolicyFields p) ∧
      (∀ b, p.rotateKeys = some b →
        lookupKey "rotate_keys" (publicCertificateRotationPolicyFields p) =
          some (ScalarVal.bool b))) ∧
    (∀ p : RotationPolicy,
      dataSourceIbmSmPrivateCertificateMetadataRotationPolicyToMap (.rotationPolicy p) =
        .ok (rotationPolicyFields p) ∧
      dataSourceIbmSmUsernamePasswordSecretMetadataRotationPolicyToMap (.rotationPolicy p) =
        .ok (rotationPolicyFields p) ∧
      (∀ b, p.rotateKeys = some b →
        lookupKey "rotate_keys" (rotationPolicyFields p) = some (ScalarVal.bool b))) := by
  refine ⟨fun p => ⟨?_, ?_, ?_⟩, fun p => ⟨?_, ?_, ?_⟩, fun p => ⟨?_, ?_, ?_⟩⟩
  · rcases p with ⟨a, i, u⟩; cases a <;> cases i <;> cases u <;> rfl
  · rcases p with ⟨a, i, u⟩; cases a <;> cases i <;> cases u <;> rfl
  · simp [commonRotationPolicyFields, lookupKey_append, lookupKey_optEntry]
  · rcases p with ⟨a, i, u, rk⟩; cases a <;> cases i <;> cases u <;> cases rk <;> rfl
  · rcases p with ⟨a, i, u, rk⟩; cases a <;> cases i <;> cases u <;> cases rk <;> rfl
  · intro b hb
    simp [publicCertificateRotationPolicyFields, lookupKey_append, lookupKey_optEntry, hb]
  · rcases p with ⟨a, i, u, rk⟩; cases a <;> cases i <;> cases u <;> cases rk <;> rfl
  · rcases p with ⟨a, i, u, rk⟩; cases a <;> cases i <;> cases u <;> cases rk <;> rfl
  · intro b hb
    simp [rotationPolicyFields, lookupKey_append, lookupKey_optEntry, hb]

/-- Witness for C2 at a concrete public-certificate policy and a
concrete base policy, both with `rotate_keys = some true`. -/
theorem rotationPolicyToMap_variant_exact_witness :
    lookupKey "rotate_keys"
        (publicCertificateRotationPolicyFields ⟨some true, some 30, some "day", some true⟩) =
      some (ScalarVal.bool true) ∧
    lookupKey "rotate_keys"
        (rotationPolicyFields ⟨some true, some 30, some "day", some true⟩) =
      some (ScalarVal.bool true) :=
  ⟨(rotationPolicyToMap_variant_exact.2.1 ⟨some true, some 30, some "day", some true⟩).2.2 true rfl,
   (rotationPolicyToMap_variant_exact.2.2 ⟨some true, some 30, some "day", some true⟩).2.2 true rfl⟩

/-- C3: on an unrecognized rotation-policy variant both mappers return
an error (and, being `Except.error`, no partial map), and each read
operation ends in that very error diagnostic. -/
theorem rotationPolicyToMap_unknown_is_error :
    (∀ tag : String,
      dataSourceIbmSmPrivateCertificateMetadataRotationPolicyToMap (.unknown tag) =
        .error "Unrecognized secretsmanagerv2.RotationPolicyIntf subtype encountered") ∧
    (∀ tag : String,
      dataSourceIbmSmUsernamePasswordSecretMetadataRotationPolicyToMap (.unknown tag) =
        .error "Unrecognized secretsmanagerv2.RotationPolicyIntf subtype encountered") ∧
    (∀ (inputId tag i resp : String) (fetch : String → FetchOutcome) (d : StateMap)
        (m : PrivateCertificateMetadata),
      fetch inputId = ⟨some (.privateCertificate m), resp, none⟩ →
      m.id = some i → m.rotation = some (.unknown tag) →
      ((dataSourceIbmSmPrivateCertificateMetadataRead none inputId fetch d).1).errMsg =
        some "Unrecognized secretsmanagerv2.RotationPolicyIntf subtype encountered") ∧
    (∀ (inputId tag i resp : String) (fetch : String → FetchOutcome) (d : StateMap)
        (m : UsernamePasswordSecretMetadata),
      fetch inputId = ⟨some (.usernamePassword m), resp, none⟩ →
      m.id = some i → m.rotation = some (.unknown tag) →
      ((dataSourceIbmSmUsernamePasswordSecretMetadataRead none inputId fetch d).1).errMsg =
        some "Unrecognized secretsmanagerv2.RotationPolicyIntf subtype encountered") := by
  refine ⟨fun tag => rfl, fun tag => rfl, ?_, ?_⟩
  · intro inputId tag i resp fetch d m hf hid hrot
    simp [dataSourceIbmSmPrivateCertificateMetadataRead, hf,
      privateCertificateMetadataAssign, hid, privateCertificateRotationList, hrot,
      dataSourceIbmSmPrivateCertificateMetadataRotationPolicyToMap, ReadResult.errMsg]
  · intro inputId tag i resp fetch d m hf hid hrot
    simp [dataSourceIbmSmUsernamePasswordSecretMetadataRead, hf,
      usernamePasswordSecretMetadataAssign, hid, usernamePasswordRotationList, hrot,
      dataSourceIbmSmUsernamePasswordSecretMetadataRotationPolicyToMap, ReadResult.errMsg]

/-- Witness for C3: both read operations, fetching a record whose
rotation policy has an unrecognized dynamic type, end in the mapper's
error. -/
theorem rotationPolicyToMap_unknown_is_error_witness :
    ((dataSourceIbmSmPrivateCertificateMetadataRead none "secret-unk"
        (fun _ =>
          ⟨some (.privateCertificate
            { emptyPrivateCertificateMetadata with
                id := some "secret-unk",
                rotation := some (.unknown "mockRotationPolicy") }),
           "200 OK", none⟩)
        []).1).errMsg =
      some "Unrecognized secretsmanagerv2.RotationPolicyIntf subtype encountered" ∧
    ((dataSourceIbmSmUsernamePasswordSecretMetadataRead none "secret-unk"
        (fun _ =>
          ⟨some (.usernamePassword
            { emptyUsernamePasswordSecretMetadata with
                id := some "secret-unk",
                rotation := some (.unknown "mockRotationPolicy") }),
           "200 OK", none⟩)
        []).1).errMsg =
      some "Unrecognized secretsmanagerv2.RotationPolicyIntf subtype encountered" :=
  ⟨rotationPolicyToMap_unknown_is_error.2.2.1 "secret-unk" "mockRotationPolicy" "secret-unk"
      "200 OK" _ [] _ rfl rfl rfl,
   rotationPolicyToMap_unknown_is_error.2.2.2 "secret-unk" "mockRotationPolicy" "secret-unk"
      "200 OK" _ [] _ rfl rfl rfl⟩

/-- C4: when the remote metadata fetch fails, both read operations
return the error wrapped with the response context and leave the state
exactly as it was — no attribute is set. -/
theorem read_fetch_failure_is_error :
    ∀ (inputId e : String) (fetch : String → FetchOutcome) (d : StateMap),
      (fetch inputId).err = some e →
      dataSourceIbmSmPrivateCertificateMetadataRead none inputId fetch d =
        (.err d ("GetSecretMetadataWithContext failed " ++ e ++ "\n" ++
          (fetch inputId).response), [inputId]) ∧
      dataSourceIbmSmUsernamePasswordSecretMetadataRead none inputId fetch d =
        (.err d ("GetSecretMetadataWithContext failed " ++ e ++ "\n" ++
          (fetch inputId).response), [inputId]) := by
  intro inputId e fetch d h
  constructor <;>
    simp [dataSourceIbmSmPrivateCertificateMetadataRead,
      dataSourceIbmSmUsernamePasswordSecretMetadataRead, h]

/-- Witness for C4: a concrete non-2xx fetch outcome. -/
theorem read_fetch_failure_is_error_witness :
    dataSourceIbmSmPrivateCertificateMetadataRead none "secret-123"
        (fun _ => ⟨none, "status code 404", some "Not Found"⟩) [] =
      (.err [] ("GetSecretMetadataWithContext failed " ++ "Not Found" ++ "\n" ++
        "status code 404"), ["secret-123"]) ∧
    dataSourceIbmSmUsernamePasswordSecretMetadataRead none "secret-123"
        (fun _ => ⟨none, "status code 404", some "Not Found"⟩) [] =
      (.err [] ("GetSecretMetadataWithContext failed " ++ "Not Found" ++ "\n" ++
        "status code 404"), ["secret-123"]) :=
  read_fetch_failure_is_error "secret-123" "Not Found"
    (fun _ => ⟨none, "status code 404", some "Not Found"⟩) [] rfl

theorem privateCertificateRead_trace (inputId : String) (fetch : String → FetchOutcome)
    (d : StateMap) :
    (dataSourceIbmSmPrivateCertificateMetadataRead none inputId fetch d).2 = [inputId] := by
  rcases h : (fetch inputId).err with _ | e
  · rcases h2 : (fetch inputId).intf with _ | mi
    · simp [dataSourceIbmSmPrivateCertificateMetadataRead, h, h2]
    · rcases mi with m | m | t <;>
        simp [dataSourceIbmSmPrivateCertificateMetadataRead, h, h2]
  · simp [dataSourceIbmSmPrivateCertificateMetadataRead, h]

theorem usernamePasswordRead_trace (inputId : String) (fetch : String → FetchOutcome)
    (d : StateMap) :
    (dataSourceIbmSmUsernamePasswordSecretMetadataRead none inputId fetch d).2 = [inputId] := by
  rcases h : (fetch inputId).err with _ | e
  · rcases h2 : (fetch inputId).intf with _ | mi
    · simp [dataSourceIbmSmUsernamePasswordSecretMetadataRead, h, h2]
    · rcases mi with m | m | t <;>
        simp [dataSourceIbmSmUsernamePasswordSecretMetadataRead, h, h2]
  · simp [dataSourceIbmSmUsernamePasswordSecretMetadataRead, h]

/-- C7 as stated is false: an invocation whose client-session
acquisition fails returns before any outbound call, so zero (not one)
`GetSecretMetadata` calls are made even though the read operation was
invoked and failed. -/
theorem read_single_fetch_counterexample :
    ¬ ((dataSourceIbmSmPrivateCertificateMetadataRead
          (some "error getting the Secrets Manager session") "secret-123"
          (fun _ => ⟨none, "", none⟩) []).2.length = 1) := by
  decide

/-- C7 (amended): every invocation of either read operation makes at
most one outbound `GetSecretMetadata` call — never more, so there is no
local retry — and exactly one whenever client-session acquisition
succeeds, whether the fetch then succeeds or fails; when client-session
acquisition fails, each read returns that session error with the state
untouched and makes no outbound call at all. -/
theorem read_at_most_one_fetch :
    ∀ (sessionErr : Option String) (inputId : String) (fetch : String → FetchOutcome)
      (d : StateMap),
      (dataSourceIbmSmPrivateCertificateMetadataRead sessionErr inputId fetch d).2.length ≤ 1 ∧
      (dataSourceIbmSmUsernamePasswordSecretMetadataRead sessionErr inputId fetch d).2.length ≤ 1 ∧
      (sessionErr = none →
        (dataSourceIbmSmPrivateCertificateMetadataRead sessionErr inputId fetch d).2 =
          [inputId] ∧
        (dataSourceIbmSmUsernamePasswordSecretMetadataRead sessionErr inputId fetch d).2 =
          [inputId]) ∧
      (∀ e, sessionErr = some e →
        dataSourceIbmSmPrivateCertificateMetadataRead sessionErr inputId fetch d =
          (.err d e, []) ∧
        dataSourceIbmSmUsernamePasswordSecretMetadataRead sessionErr inputId fetch d =
          (.err d e, [])) := by
  intro sessionErr inputId fetch d
  cases sessionErr with
  | none =>
    refine ⟨?_, ?_, fun _ => ⟨privateCertificateRead_trace inputId fetch d,
      usernamePasswordRead_trace inputId fetch d⟩, fun e h => Option.noConfusion h⟩
    · rw [privateCertificateRead_trace inputId fetch d]; simp
    · rw [usernamePasswordRead_trace inputId fetch d]; simp
  | some e =>
    refine ⟨?_, ?_, fun h => Option.noConfusion h, fun e' h => ?_⟩
    · simp [dataSourceIbmSmPrivateCertificateMetadataRead]
    · simp [dataSourceIbmSmUsernamePasswordSecretMetadataRead]
    · injection h with h
      subst h
      exact ⟨rfl, rfl⟩

/-- Witness for the amended C7: a concrete successful session makes
exactly one call, and a concrete failed session acquisition returns the
session error with zero calls, for both read operations. -/
theorem read_at_most_one_fetch_witness :
    ((dataSourceIbmSmPrivateCertificateMetadataRead none "secret-123"
        (fun _ => ⟨none, "", some "boom"⟩) []).2 = ["secret-123"] ∧
     (dataSourceIbmSmUsernamePasswordSecretMetadataRead none "secret-123"
        (fun _ => ⟨none, "", some "boom"⟩) []).2 = ["secret-123"]) ∧
    (dataSourceIbmSmPrivateCertificateMetadataRead
        (some "error getting the Secrets Manager session") "secret-123"
        (fun _ => ⟨none, "", some "boom"⟩) [] =
      (.err [] "error getting the Secrets Manager session", []) ∧
     dataSourceIbmSmUsernamePasswordSecretMetadataRead
        (some "error getting the Secrets Manager session") "secret-123"
        (fun _ => ⟨none, "", some "boom"⟩) [] =
      (.err [] "error getting the Secrets Manager session", [])) :=
  ⟨(read_at_most_one_fetch none "secret-123" (fun _ => ⟨none, "", some "boom"⟩) []).2.2.1 rfl,
   (read_at_most_one_fetch (some "error getting the Secrets Manager session") "secret-123"
      (fun _ => ⟨none, "", some "boom"⟩) []).2.2.2
      "error getting the Secrets Manager session" rfl⟩

/-- `true` exactly when the attribute is declared as a nested list
block: `schema.TypeList` whose `Elem` is a nested `schema.Resource`. -/
def isNestedListBlock (a : AttrSchema) : Bool :=
  match a.typ, a.elem with
  | .typeList, some (.elemResource _) => true
  | _, _ => false

/-- C8: in both declared schemas exactly the attribute `id` is marked
required, every other attribute is computed (and not required), the
nested structures — `rotation` in both schemas and `validity` for
private certificates — are declared as nested list blocks, and the
lists the read paths build for them always have at most one element. -/
theorem schema_required_computed_nested :
    (DataSourceIbmSmPrivateCertificateMetadata.filter (fun e => e.2.required)).map
        Prod.fst = ["id"] ∧
    (DataSourceIbmSmUsernamePasswordSecretMetadata.filter (fun e => e.2.required)).map
        Prod.fst = ["id"] ∧
    DataSourceIbmSmPrivateCertificateMetadata.all
      (fun e => e.1 == "id" || (e.2.computed && !e.2.required)) = true ∧
    DataSourceIbmSmUsernamePasswordSecretMetadata.all
      (fun e => e.1 == "id" || (e.2.computed && !e.2.required)) = true ∧
    (lookupKey "rotation" DataSourceIbmSmPrivateCertificateMetadata).map isNestedListBlock =
      some true ∧
    (lookupKey "validity" DataSourceIbmSmPrivateCertificateMetadata).map isNestedListBlock =
      some true ∧
    (lookupKey "rotation" DataSourceIbmSmUsernamePasswordSecretMetadata).map isNestedListBlock =
      some true ∧
    (∀ (rot : Option RotationPolicyIntf) (l : List NestedMap),
      privateCertificateRotationList rot = .ok l → l.length ≤ 1) ∧
    (∀ (v : Option CertificateValidity) (l : List NestedMap),
      privateCertificateValidityList v = .ok l → l.length ≤ 1) ∧
    (∀ (rot : Option RotationPolicyIntf) (l : List NestedMap),
      usernamePasswordRotationList rot = .ok l → l.length ≤ 1) := by
  refine ⟨by decide, by decide, by decide, by decide, by decide, by decide, by decide,
    ?_, ?_, ?_⟩
  · intro rot l h
    cases rot with
    | none =>
      simp only [privateCertificateRotationList] at h
      injection h with h
      subst h
      decide
    | some r =>
      rcases hm : dataSourceIbmSmPrivateCertificateMetadataRotationPolicyToMap r with e | mm <;>
        simp [privateCertificateRotationList, hm] at h
      simp [← h]
  · intro v l h
    cases v with
    | none =>
      simp only [privateCertificateValidityList] at h
      injection h with h
      subst h
      decide
    | some vv =>
      rcases hm : dataSourceIbmSmPrivateCertificateMetadataCertificateValidityToMap vv with e | mm <;>
        simp [privateCertificateValidityList, hm] at h
      simp [← h]
  · intro rot l h
    cases rot with
    | none =>
      simp only [usernamePasswordRotationList] at h
      injection h with h
      subst h
      decide
    | some r =>
      rcases hm : dataSourceIbmSmUsernamePasswordSecretMetadataRotationPolicyToMap r with e | mm <;>
        simp [usernamePasswordRotationList, hm] at h
      simp [← h]

/-- Witness for C8 at the empty rotation policy and validity window. -/
theorem schema_required_computed_nested_witness :
    privateCertificateRotationList none = .ok [] ∧
    (([] : List NestedMap).length ≤ 1 ∧
     ([] : List NestedMap).length ≤ 1 ∧
     ([] : List NestedMap).length ≤ 1) :=
  ⟨rfl,
   schema_required_computed_nested.2.2.2.2.2.2.2.1 none [] rfl,
   schema_required_computed_nested.2.2.2.2.2.2.2.2.1 none [] rfl,
   schema_required_computed_nested.2.2.2.2.2.2.2.2.2 none [] rfl⟩

/-- C10: with the expected concrete metadata type and a non-null `ID`,
the post-fetch assertion-and-assignment step never panics; a `nil` `ID`
is a Go nil-pointer panic; and a record of the wrong concrete type makes
the read end in a type-assertion panic, not in a user-facing error
diagnostic. -/
theorem read_type_assertion_and_id_deref :
    (∀ (m : PrivateCertificateMetadata) (i : String) (d : StateMap),
      m.id = some i →
      ∀ msg, privateCertificateMetadataAssign m d ≠ .goPanic msg) ∧
    (∀ (m : UsernamePasswordSecretMetadata) (i : String) (d : StateMap),
      m.id = some i →
      ∀ msg, usernamePasswordSecretMetadataAssign m d ≠ .goPanic msg) ∧
    (∀ (m : PrivateCertificateMetadata) (d : StateMap),
      m.id = none →
      privateCertificateMetadataAssign m d =
        .goPanic "runtime error: invalid memory address or nil pointer dereference") ∧
    (∀ (inputId resp : String) (fetch : String → FetchOutcome) (d : StateMap)
        (u : UsernamePasswordSecretMetadata),
      fetch inputId = ⟨some (.usernamePassword u), resp, none⟩ →
      ((dataSourceIbmSmPrivateCertificateMetadataRead none inputId fetch d).1 =
        .goPanic "interface conversion: secretsmanagerv2.SecretMetadataIntf is not *secretsmanagerv2.PrivateCertificateMetadata" ∧
       ((dataSourceIbmSmPrivateCertificateMetadataRead none inputId fetch d).1).errMsg =
        none)) ∧
    (∀ (inputId resp : String) (fetch : String → FetchOutcome) (d : StateMap)
        (m : PrivateCertificateMetadata),
      fetch inputId = ⟨some (.privateCertificate m), resp, none⟩ →
      ((dataSourceIbmSmUsernamePasswordSecretMetadataRead none inputId fetch d).1 =
        .goPanic "interface conversion: secretsmanagerv2.SecretMetadataIntf is not *secretsmanagerv2.UsernamePasswordSecretMetadata" ∧
       ((dataSourceIbmSmUsernamePasswordSecretMetadataRead none inputId fetch d).1).errMsg =
        none)) := by
  refine ⟨?_, ?_, ?_, ?_, ?_⟩
  · intro m i d hid msg
    simp only [privateCertificateMetadataAssign, hid]
    rcases hrot : privateCertificateRotationList m.rotation with e | rl <;> simp [hrot]
    rcases hval : privateCertificateValidityList m.validity with e | vl <;> simp [hval]
  · intro m i d hid msg
    simp only [usernamePasswordSecretMetadataAssign, hid]
    rcases hrot : usernamePasswordRotationList m.rotation with e | rl <;> simp [hrot]
  · intro m d hid
    simp [privateCertificateMetadataAssign, hid]
  · intro inputId resp fetch d u hf
    constructor <;> simp [dataSourceIbmSmPrivateCertificateMetadataRead, hf, ReadResult.errMsg]
  · intro inputId resp fetch d m hf
    constructor <;> simp [dataSourceIbmSmUsernamePasswordSecretMetadataRead, hf, ReadResult.errMsg]

/-- Witness for C10: a well-typed record with a non-null id does not
panic, a nil id panics, and a wrongly-typed response makes each read
panic rather than return a diagnostic. -/
theorem read_type_assertion_and_id_deref_witness :
    (privateCertificateMetadataAssign
        { emptyPrivateCertificateMetadata with id := some "secret-w" } [] ≠
      .goPanic "boom") ∧
    (privateCertificateMetadataAssign emptyPrivateCertificateMetadata [] =
      .goPanic "runtime error: invalid memory address or nil pointer dereference") ∧
    ((dataSourceIbmSmPrivateCertificateMetadataRead none "secret-w"
        (fun _ => ⟨some (.usernamePassword emptyUsernamePasswordSecretMetadata), "200 OK", none⟩)
        []).1 =
      .goPanic "interface conversion: secretsmanagerv2.SecretMetadataIntf is not *secretsmanagerv2.PrivateCertificateMetadata") ∧
    ((dataSourceIbmSmUsernamePasswordSecretMetadataRead none "secret-w"
        (fun _ => ⟨some (.privateCertificate emptyPrivateCertificateMetadata), "200 OK", none⟩)
        []).1 =
      .goPanic "interface conversion: secretsmanagerv2.SecretMetadataIntf is not *secretsmanagerv2.UsernamePasswordSecretMetadata") :=
  ⟨read_type_assertion_and_id_deref.1
      { emptyPrivateCertificateMetadata with id := some "secret-w" } "secret-w" [] rfl "boom",
   read_type_assertion_and_id_deref.2.2.1 emptyPrivateCertificateMetadata [] rfl,
   (read_type_assertion_and_id_deref.2.2.2.1 "secret-w" "200 OK" _ [] _ rfl).1,
   (read_type_assertion_and_id_deref.2.2.2.2 "secret-w" "200 OK" _ [] _ rfl).1⟩

end SecretsManager
